import Mathlib

/-!
# Verification of the polymarket-kit order core

Shallow embedding of the safety-critical core of `crates/clob`:

* the decimal amount converter (`calculate_order_amounts`, `fix_amount_rounding`,
  `decimal_to_token_u32` from `src/order/create.rs`),
* tick-size parsing and rounding configuration (`src/order/types.rs`),
* the order builder (`create_order` from `src/order/create.rs`) together with the
  serde wire serialization of `SignedOrderRequest`,
* the L2 HMAC request signature (`build_hmac_signature` from `src/trading.rs`),
  including executable models of SHA-256, HMAC-SHA256 and URL-safe base64.

Decimals follow `rust_decimal`: a value is an integer mantissa together with a
base-10 scale (the value is `mantissa / 10 ^ scale`).  Division models the
crate's abort paths — a zero divisor and the "Division overflowed" panic when
the quotient exceeds the 96-bit mantissa.  Multiplication and rounding keep an
unbounded mantissa (the claims exercise them only far below the 96-bit bound,
where the crate is exact).  A Rust panic (decimal division by zero or overflow,
or a failing `try_into::<u32>`) is modelled by `Option.none`; a returned
`Result::Err` is modelled by `Except.error`.
-/

/-- Model of `rust_decimal::Decimal`: value `mantissa / 10 ^ scale`. -/
structure Decimal where
  mantissa : Int
  scale : Nat
deriving DecidableEq, Repr

/-- The three `rust_decimal::RoundingStrategy` values imported by `create.rs`. -/
inductive RoundingStrategy where
  | toZero
  | awayFromZero
  | midpointTowardZero
deriving DecidableEq, Repr

/-- Model of `Decimal::round_dp_with_strategy`: when the scale is already at most
`dp` the value is returned unchanged, otherwise the mantissa is rescaled to `dp`
fractional digits using the given strategy (all three strategies used by the
source are symmetric about zero). -/
def Decimal.round_dp_with_strategy (d : Decimal) (dp : Nat) (strategy : RoundingStrategy) :
    Decimal :=
  if d.scale ≤ dp then d
  else
    let p : Nat := 10 ^ (d.scale - dp)
    let na : Nat := d.mantissa.natAbs
    let q : Nat := na / p
    let r : Nat := na % p
    let rounded : Nat :=
      match strategy with
      | .toZero => q
      | .awayFromZero => if r = 0 then q else q + 1
      | .midpointTowardZero => if 2 * r > p then q + 1 else q
    ⟨if d.mantissa < 0 then -(rounded : Int) else (rounded : Int), dp⟩

/-- Exact product of two decimals (`rust_decimal` multiplication is exact whenever
the result mantissa fits in 96 bits; the bound is idealized away). -/
def Decimal.mul (a b : Decimal) : Decimal :=
  ⟨a.mantissa * b.mantissa, a.scale + b.scale⟩

/-- Core of `rust_decimal` division for a nonzero divisor: the rounded mantissa
magnitude and the chosen scale.  With `na / da` the magnitude of the exact
quotient, the scale is the smallest one at which the quotient terminates,
capped both at 28 fractional digits and at the largest scale whose truncated
mantissa still fits the 96-bit mantissa; a nonzero discarded remainder rounds
the last digit to nearest, ties away from zero.  A mantissa that (after the
rounding carry) reaches `2 ^ 96` cannot be represented and is the crate's
"Division overflowed" panic, flagged by `Decimal.divOverflows`. -/
def Decimal.divCore (a b : Decimal) : Nat × Nat :=
  let na : Nat := (a.mantissa * (10 : Int) ^ b.scale).natAbs
  let da : Nat := (b.mantissa * (10 : Int) ^ a.scale).natAbs
  let sFit : Nat := ((List.range 29).filter fun s => na * 10 ^ s / da < 2 ^ 96).length - 1
  let sExact : Nat := (((List.range 29).find? fun s => na * 10 ^ s % da = 0)).getD 29
  let s : Nat := min sExact sFit
  let q : Nat := na * 10 ^ s / da
  let r : Nat := na * 10 ^ s % da
  (if r = 0 then q else if da ≤ 2 * r then q + 1 else q, s)

/-- The quotient of `a / b` does not fit a 96-bit mantissa at any scale: the
`Div` impl of `rust_decimal` panics with "Division overflowed". -/
def Decimal.divOverflows (a b : Decimal) : Prop :=
  2 ^ 96 ≤ (Decimal.divCore a b).1

instance (a b : Decimal) : Decidable (a.divOverflows b) := by
  unfold Decimal.divOverflows; infer_instance

/-- Model of `rust_decimal`'s `Div`: panics (`none`) on a zero divisor or on a
quotient exceeding the 96-bit mantissa, otherwise returns the rounded
quotient. -/
def Decimal.div? (a b : Decimal) : Option Decimal :=
  if b.mantissa = 0 then none
  else if a.divOverflows b then none
  else
    some ⟨if (a.mantissa < 0) = (b.mantissa < 0) then ((Decimal.divCore a b).1 : Int)
          else -((Decimal.divCore a b).1 : Int), (Decimal.divCore a b).2⟩

/-- `d` sits exactly halfway between two multiples of `10 ^ (scale - dp)`:
the discarded remainder is exactly half a unit in the last kept place. -/
def Decimal.isMidpointAt (d : Decimal) (dp : Nat) : Prop :=
  dp < d.scale ∧ 2 * (d.mantissa.natAbs % 10 ^ (d.scale - dp)) = 10 ^ (d.scale - dp)

instance (d : Decimal) (dp : Nat) : Decidable (d.isMidpointAt dp) := by
  unfold Decimal.isMidpointAt; infer_instance

/-- `OrderSide` from `src/order/types.rs`. -/
inductive OrderSide where
  | Buy
  | Sell
deriving DecidableEq, Repr

/-- `OrderSide::to_u8`: 0 for BUY, 1 for SELL. -/
def OrderSide.to_u8 : OrderSide → Nat
  | .Buy => 0
  | .Sell => 1

/-- `RoundConfig` from `src/order/types.rs`. -/
structure RoundConfig where
  price : Nat
  size : Nat
  amount : Nat
deriving DecidableEq, Repr

/-- `TickSize` from `src/order/types.rs`. -/
inductive TickSize where
  | Tenth
  | Hundredth
  | Thousandth
  | TenThousandth
deriving DecidableEq, Repr

/-- `TickSize::round_config`. -/
def TickSize.round_config : TickSize → RoundConfig
  | .Tenth => ⟨1, 2, 3⟩
  | .Hundredth => ⟨2, 2, 4⟩
  | .Thousandth => ⟨3, 2, 5⟩
  | .TenThousandth => ⟨4, 2, 6⟩

/-- `impl FromStr for TickSize`: exactly four strings parse. -/
def TickSize.from_str (s : String) : Except String TickSize :=
  if s = "0.1" then .ok .Tenth
  else if s = "0.01" then .ok .Hundredth
  else if s = "0.001" then .ok .Thousandth
  else if s = "0.0001" then .ok .TenThousandth
  else .error "invalid tick size"

/-- `OrderKind` from `src/order/types.rs`. -/
inductive OrderKind where
  | Limit (size : Decimal)
  | MarketBuy (quote_amount : Decimal)
  | MarketSell (base_amount : Decimal)
deriving DecidableEq, Repr

/-- `SignatureType` from `src/order/types.rs`. -/
inductive SignatureType where
  | Eoa
  | PolyProxy
  | PolyGnosisSafe
deriving DecidableEq, Repr

/-- `SignatureType::to_u8`. -/
def SignatureType.to_u8 : SignatureType → Nat
  | .Eoa => 0
  | .PolyProxy => 1
  | .PolyGnosisSafe => 2

/-- `TOKEN_SCALE` from `src/contracts.rs`: `Decimal::from_parts(1_000_000, 0, 0, false, 0)`. -/
def TOKEN_SCALE : Decimal := ⟨1000000, 0⟩

/-- `fix_amount_rounding` from `src/order/create.rs`. -/
def fix_amount_rounding (amt : Decimal) (round_config : RoundConfig) : Decimal :=
  if round_config.amount < amt.scale then
    let a1 := amt.round_dp_with_strategy (round_config.amount + 4) .awayFromZero
    if round_config.amount < a1.scale then
      a1.round_dp_with_strategy round_config.amount .toZero
    else a1
  else amt

/-- `decimal_to_token_u32` from `src/order/create.rs`: scale by `TOKEN_SCALE`,
round any fractional remainder to 0 digits (midpoint toward zero), then convert
to `u32`; the `expect` panic on a negative or out-of-range value is `none`. -/
def decimal_to_token_u32 (amt : Decimal) : Option Nat :=
  let scaled := TOKEN_SCALE.mul amt
  let scaled :=
    if 0 < scaled.scale then scaled.round_dp_with_strategy 0 .midpointTowardZero else scaled
  if 0 ≤ scaled.mantissa ∧ scaled.mantissa < 4294967296 then some scaled.mantissa.toNat
  else none

/-- `calculate_order_amounts` from `src/order/create.rs`.  Returns
`(maker_amount, taker_amount)`; `none` models a panic (division by zero or a
failing `u32` conversion), evaluated in the source's order. -/
def calculate_order_amounts (price : Decimal) (side : OrderSide) (kind : OrderKind)
    (tick_size : TickSize) : Option (Nat × Nat) :=
  let round_cfg := tick_size.round_config
  let raw_price := price.round_dp_with_strategy round_cfg.price .midpointTowardZero
  match kind, side with
  | .Limit size, .Buy =>
    let raw_taker_amt := size.round_dp_with_strategy round_cfg.size .toZero
    let raw_maker_amt := fix_amount_rounding (raw_taker_amt.mul raw_price) round_cfg
    do
      let m ← decimal_to_token_u32 raw_maker_amt
      let t ← decimal_to_token_u32 raw_taker_amt
      pure (m, t)
  | .Limit size, .Sell =>
    let raw_maker_amt := size.round_dp_with_strategy round_cfg.size .toZero
    let raw_taker_amt := fix_amount_rounding (raw_maker_amt.mul raw_price) round_cfg
    do
      let m ← decimal_to_token_u32 raw_maker_amt
      let t ← decimal_to_token_u32 raw_taker_amt
      pure (m, t)
  | .MarketBuy quote_amount, .Buy =>
    let raw_quote := quote_amount.round_dp_with_strategy round_cfg.size .toZero
    do
      let quotient ← raw_quote.div? raw_price
      let raw_base := fix_amount_rounding quotient round_cfg
      let m ← decimal_to_token_u32 raw_quote
      let t ← decimal_to_token_u32 raw_base
      pure (m, t)
  | .MarketSell base_amount, .Sell =>
    let raw_base := base_amount.round_dp_with_strategy round_cfg.size .toZero
    let raw_quote := fix_amount_rounding (raw_base.mul raw_price) round_cfg
    do
      let m ← decimal_to_token_u32 raw_base
      let t ← decimal_to_token_u32 raw_quote
      pure (m, t)
  | _, _ => some (0, 0)

example : calculate_order_amounts ⟨65, 2⟩ .Buy (.Limit ⟨500, 0⟩) .Hundredth
    = some (325000000, 500000000) := by decide

example : calculate_order_amounts ⟨40, 2⟩ .Buy (.MarketBuy ⟨1000, 0⟩) .Hundredth
    = some (1000000000, 2500000000) := by decide

/-- The EIP-712 `Order` struct declared by the `sol!` block in `src/order/sign.rs`
(addresses as strings, `uint256` fields as naturals). -/
structure Order where
  salt : Nat
  maker : String
  signer : String
  taker : String
  tokenId : Nat
  makerAmount : Nat
  takerAmount : Nat
  expiration : Nat
  nonce : Nat
  feeRateBps : Nat
  side : Nat
  signatureType : Nat
deriving DecidableEq, Repr

/-- `SignedOrderRequest` from `src/order/types.rs`: `salt` stays a `u64`, every
other numeric field has already been rendered as a `String`. -/
structure SignedOrderRequest where
  salt : Nat
  maker : String
  signer : String
  taker : String
  token_id : String
  maker_amount : String
  taker_amount : String
  expiration : String
  nonce : String
  fee_rate_bps : String
  side : OrderSide
  signature_type : Nat
  signature : String
deriving DecidableEq, Repr

/-- `OrderParams` from `src/order/create.rs` (the `wallet` field lives in `Env`). -/
structure OrderParams where
  token_id : String
  price : Decimal
  side : OrderSide
  nonce : Option Nat
  fee_rate_bps : Option Nat
  expiration : Option Nat
  taker : Option String
  signer : String
  funder : Option String
  tick_size : String
  kind : OrderKind
  sig_type : SignatureType
  neg_risk : Bool

/-- `Address::ZERO` rendered by `to_string()`. -/
def ADDRESS_ZERO : String := "0x0000000000000000000000000000000000000000"

/-- `POLYGON_EXCHANGE_CONTRACT` from `src/contracts.rs`. -/
def POLYGON_EXCHANGE_CONTRACT : String := "0x4bFb41d5B3570DeFd03C39a9A4D8dE6Bd8B8982E"

/-- `POLYGON_NEG_RISK_EXCHANGE_CONTRACT` from `src/contracts.rs`. -/
def POLYGON_NEG_RISK_EXCHANGE_CONTRACT : String := "0xC5d563A36AE78145C45a50134d48A1215220f80a"

/-- Model of `U256::from_str_radix(s, 10)` (ruint): decimal digits with `_`
separator characters ignored — so the empty string parses as zero and numerals
such as "1_0" are accepted — and the value must fit 256 bits. -/
def parse_u256_dec (s : String) : Option Nat :=
  if s.data.all (fun c => c.isDigit || c == '_') then
    let n := s.data.foldl (fun acc c => if c == '_' then acc else acc * 10 + (c.toNat - 48)) 0
    if n < 2 ^ 256 then some n else none
  else none

example : parse_u256_dec "1_0" = some 10 := by decide

example : parse_u256_dec "" = some 0 := by decide

example : parse_u256_dec "12c" = none := by decide

/-- The ambient effects of `create_order`: the wallet address
(`params.wallet.address()`), the `generate_seed()` result, and
`sign_order_message` for this wallet as a function of the order and the
verifying contract. -/
structure Env where
  wallet_address : String
  seed : Nat
  sign : Order → String → Except String String

/-- `create_order` from `src/order/create.rs` under a fixed `Env`.
`none` models a panic inside `calculate_order_amounts`; `some (.error e)` a
returned `Err`; the steps run in the source's order (tick-size parse, amount
calculation, seed, token-id parse, signing). -/
def create_order (env : Env) (params : OrderParams) :
    Option (Except String SignedOrderRequest) :=
  let signer := env.wallet_address
  let nonce := params.nonce.getD 0
  let fee_rate_bps := params.fee_rate_bps.getD 0
  let expiration := params.expiration.getD 0
  let taker := params.taker.getD ADDRESS_ZERO
  let funder := params.funder.getD signer
  match TickSize.from_str params.tick_size with
  | .error e => some (.error e)
  | .ok tick_size =>
    match calculate_order_amounts params.price params.side params.kind tick_size with
    | none => none
    | some (maker_amount, taker_amount) =>
      let seed := env.seed
      match parse_u256_dec params.token_id with
      | none => some (.error "Invalid token_id")
      | some u256_token_id =>
        let order : Order :=
          { salt := seed, maker := funder, signer := signer, taker := taker,
            tokenId := u256_token_id, makerAmount := maker_amount,
            takerAmount := taker_amount, expiration := expiration, nonce := nonce,
            feeRateBps := fee_rate_bps, side := params.side.to_u8,
            signatureType := params.sig_type.to_u8 }
        let exchange_contract :=
          if params.neg_risk then POLYGON_NEG_RISK_EXCHANGE_CONTRACT
          else POLYGON_EXCHANGE_CONTRACT
        match env.sign order exchange_contract with
        | .error e => some (.error e)
        | .ok signature =>
          some (.ok
            { salt := seed, maker := funder, signer := signer, taker := taker,
              token_id := params.token_id, maker_amount := toString maker_amount,
              taker_amount := toString taker_amount, expiration := toString expiration,
              nonce := toString nonce, fee_rate_bps := toString fee_rate_bps,
              side := params.side, signature_type := params.sig_type.to_u8,
              signature := signature })

/-- Minimal JSON value model for the serde wire format. -/
inductive Json where
  | str (s : String)
  | num (n : Nat)
  | obj (fields : List (String × Json))

/-- Field lookup in a JSON object. -/
def Json.lookup (j : Json) (key : String) : Option Json :=
  match j with
  | .obj fields => List.lookup key fields
  | _ => none

/-- Serde serialization of `OrderSide` (`rename = "BUY"` / `"SELL"`). -/
def OrderSide.toJson : OrderSide → Json
  | .Buy => .str "BUY"
  | .Sell => .str "SELL"

/-- Derived serde serialization of `SignedOrderRequest` (`src/order/types.rs`):
fields in declaration order with the `#[serde(rename = ...)]` names; `salt : u64`
serializes as a JSON number, the `String` fields as JSON strings. -/
def SignedOrderRequest.toJson (r : SignedOrderRequest) : Json :=
  .obj
    [("salt", .num r.salt), ("maker", .str r.maker), ("signer", .str r.signer),
     ("taker", .str r.taker), ("tokenId", .str r.token_id),
     ("makerAmount", .str r.maker_amount), ("takerAmount", .str r.taker_amount),
     ("expiration", .str r.expiration), ("nonce", .str r.nonce),
     ("feeRateBps", .str r.fee_rate_bps), ("side", r.side.toJson),
     ("signatureType", .num r.signature_type), ("signature", .str r.signature)]

/-! ## SHA-256, HMAC and URL-safe base64 (for `build_hmac_signature`)

Bytes are naturals below 256 and 32-bit words naturals below `2 ^ 32`. -/

/-- Truncation to a 32-bit word. -/
def w32 (x : Nat) : Nat := x % 4294967296

/-- Right rotation of a 32-bit word by `n` places. -/
def rotr32 (n x : Nat) : Nat := w32 ((x >>> n) ||| (x <<< (32 - n)))

/-- `Ch(x, y, z)` of FIPS 180-4. -/
def sha2Ch (x y z : Nat) : Nat := (x &&& y) ^^^ ((4294967295 ^^^ x) &&& z)

/-- `Maj(x, y, z)` of FIPS 180-4. -/
def sha2Maj (x y z : Nat) : Nat := (x &&& y) ^^^ (x &&& z) ^^^ (y &&& z)

/-- `Σ₀` of FIPS 180-4. -/
def bsig0 (x : Nat) : Nat := rotr32 2 x ^^^ rotr32 13 x ^^^ rotr32 22 x

/-- `Σ₁` of FIPS 180-4. -/
def bsig1 (x : Nat) : Nat := rotr32 6 x ^^^ rotr32 11 x ^^^ rotr32 25 x

/-- `σ₀` of FIPS 180-4. -/
def ssig0 (x : Nat) : Nat := rotr32 7 x ^^^ rotr32 18 x ^^^ (x >>> 3)

/-- `σ₁` of FIPS 180-4. -/
def ssig1 (x : Nat) : Nat := rotr32 17 x ^^^ rotr32 19 x ^^^ (x >>> 10)

/-- The 64 SHA-256 round constants (FIPS 180-4 §4.2.2, in decimal). -/
def sha256K : List Nat :=
  [1116352408, 1899447441, 3049323471, 3921009573, 961987163, 1508970993,
   2453635748, 2870763221, 3624381080, 310598401, 607225278, 1426881987,
   1925078388, 2162078206, 2614888103, 3248222580, 3835390401, 4022224774,
   264347078, 604807628, 770255983, 1249150122, 1555081692, 1996064986,
   2554220882, 2821834349, 2952996808, 3210313671, 3336571891, 3584528711,
   113926993, 338241895, 666307205, 773529912, 1294757372, 1396182291,
   1695183700, 1986661051, 2177026350, 2456956037, 2730485921, 2820302411,
   3259730800, 3345764771, 3516065817, 3600352804, 4094571909, 275423344,
   430227734, 506948616, 659060556, 883997877, 958139571, 1322822218,
   1537002063, 1747873779, 1955562222, 2024104815, 2227730452, 2361852424,
   2428436474, 2756734187, 3204031479, 3329325298]

/-- The eight SHA-256 initial hash values (FIPS 180-4 §5.3.3, in decimal). -/
def sha256H0 : List Nat :=
  [1779033703, 3144134277, 1013904242, 2773480762, 1359893119, 2600822924,
   528734635, 1541459225]

/-- Big-endian bytes of `x`, `k` bytes wide. -/
def toBytesBE (k : Nat) (x : Nat) : List Nat :=
  (List.range k).map fun i => x >>> (8 * (k - 1 - i)) % 256

/-- A big-endian byte list read as a natural. -/
def fromBytesBE (l : List Nat) : Nat := l.foldl (fun acc b => acc * 256 + b) 0

/-- SHA-256 padding: `0x80`, zeros to 56 mod 64, then the 64-bit bit length. -/
def sha256Pad (msg : List Nat) : List Nat :=
  msg ++ [0x80] ++ List.replicate ((119 - msg.length % 64) % 64) 0
    ++ toBytesBE 8 (8 * msg.length)

/-- Split a byte list into 64-byte blocks. -/
def toBlocks (l : List Nat) : List (List Nat) :=
  if h : l = [] then [] else l.take 64 :: toBlocks (l.drop 64)
termination_by l.length
decreasing_by
  simp only [List.length_drop]
  have : 0 < l.length := List.length_pos.mpr h
  omega

/-- Extend the 16 message-schedule words by `fuel` further words. -/
def sha256Extend (w : List Nat) : Nat → List Nat
  | 0 => w
  | fuel + 1 =>
    let t := w32 (ssig1 (w.getD (w.length - 2) 0) + w.getD (w.length - 7) 0
      + ssig0 (w.getD (w.length - 15) 0) + w.getD (w.length - 16) 0)
    sha256Extend (w ++ [t]) fuel

/-- One SHA-256 compression of a 64-byte block into the running hash. -/
def sha256Compress (hs : List Nat) (block : List Nat) : List Nat :=
  let w16 := (List.range 16).map fun i => fromBytesBE ((block.drop (4 * i)).take 4)
  let w := sha256Extend w16 48
  let step := fun (st : Nat × Nat × Nat × Nat × Nat × Nat × Nat × Nat) (kw : Nat × Nat) =>
    let (a, b, c, d, e, f, g, h) := st
    let t1 := w32 (h + bsig1 e + sha2Ch e f g + kw.1 + kw.2)
    let t2 := w32 (bsig0 a + sha2Maj a b c)
    (w32 (t1 + t2), a, b, c, w32 (d + t1), e, f, g)
  let r := (sha256K.zip w).foldl step
    (hs.getD 0 0, hs.getD 1 0, hs.getD 2 0, hs.getD 3 0, hs.getD 4 0, hs.getD 5 0,
     hs.getD 6 0, hs.getD 7 0)
  [w32 (hs.getD 0 0 + r.1), w32 (hs.getD 1 0 + r.2.1), w32 (hs.getD 2 0 + r.2.2.1),
   w32 (hs.getD 3 0 + r.2.2.2.1), w32 (hs.getD 4 0 + r.2.2.2.2.1),
   w32 (hs.getD 5 0 + r.2.2.2.2.2.1), w32 (hs.getD 6 0 + r.2.2.2.2.2.2.1),
   w32 (hs.getD 7 0 + r.2.2.2.2.2.2.2)]

/-- SHA-256 of a byte list (FIPS 180-4), as 32 bytes. -/
def sha256 (msg : List Nat) : List Nat :=
  (((toBlocks (sha256Pad msg)).foldl sha256Compress sha256H0).map (toBytesBE 4)).flatten

/-- HMAC-SHA256 (FIPS 198-1), as computed by the `hmac`/`sha2` crates. -/
def hmacSha256 (key msg : List Nat) : List Nat :=
  let k0 := if 64 < key.length then sha256 key else key
  let kpad := k0 ++ List.replicate (64 - k0.length) 0
  sha256 ((kpad.map fun b => b ^^^ 0x5c)
    ++ sha256 ((kpad.map fun b => b ^^^ 0x36) ++ msg))

/-- UTF-8 encoding of one character (`str::as_bytes`). -/
def utf8Char (c : Char) : List Nat :=
  let n := c.toNat
  if n < 0x80 then [n]
  else if n < 0x800 then [0xC0 ||| (n >>> 6), 0x80 ||| (n &&& 0x3F)]
  else if n < 0x10000 then
    [0xE0 ||| (n >>> 12), 0x80 ||| ((n >>> 6) &&& 0x3F), 0x80 ||| (n &&& 0x3F)]
  else
    [0xF0 ||| (n >>> 18), 0x80 ||| ((n >>> 12) &&& 0x3F), 0x80 ||| ((n >>> 6) &&& 0x3F),
     0x80 ||| (n &&& 0x3F)]

/-- UTF-8 bytes of a string. -/
def strBytes (s : String) : List Nat := (s.data.map utf8Char).flatten

/-- The URL-safe base64 alphabet character for a 6-bit value. -/
def b64Char (v : Nat) : Char :=
  if v < 26 then Char.ofNat (65 + v)
  else if v < 52 then Char.ofNat (97 + v - 26)
  else if v < 62 then Char.ofNat (48 + v - 52)
  else if v = 62 then Char.ofNat 45
  else Char.ofNat 95

/-- The 6-bit value of a URL-safe base64 alphabet character, `none` outside the
alphabet (in particular for the pad character). -/
def b64Val (c : Char) : Option Nat :=
  if 65 ≤ c.toNat ∧ c.toNat ≤ 90 then some (c.toNat - 65)
  else if 97 ≤ c.toNat ∧ c.toNat ≤ 122 then some (c.toNat - 71)
  else if 48 ≤ c.toNat ∧ c.toNat ≤ 57 then some (c.toNat + 4)
  else if c.toNat = 45 then some 62
  else if c.toNat = 95 then some 63
  else none

/-- URL-safe base64 encoding; `pad` selects the crate's `URL_SAFE` engine
(trailing `=` padding) versus `URL_SAFE_NO_PAD`. -/
def b64UrlEncode (pad : Bool) : List Nat → List Char
  | [] => []
  | [a] =>
    [b64Char (a >>> 2), b64Char ((a &&& 3) <<< 4)] ++ if pad then ['=', '='] else []
  | [a, b] =>
    [b64Char (a >>> 2), b64Char (((a &&& 3) <<< 4) ||| (b >>> 4)),
     b64Char ((b &&& 15) <<< 2)] ++ if pad then ['='] else []
  | a :: b :: c :: rest =>
    [b64Char (a >>> 2), b64Char (((a &&& 3) <<< 4) ||| (b >>> 4)),
     b64Char (((b &&& 15) <<< 2) ||| (c >>> 6)), b64Char (c &&& 63)]
      ++ b64UrlEncode pad rest

/-- URL-safe base64 decoding with no padding accepted (`URL_SAFE_NO_PAD`):
`=` is not in the alphabet, a trailing group of one character is malformed, and
unused trailing bits must be zero. -/
def b64UrlDecodeNoPad : List Char → Option (List Nat)
  | [] => some []
  | [c1, c2] => do
    let v1 ← b64Val c1
    let v2 ← b64Val c2
    if v2 &&& 15 = 0 then some [(v1 <<< 2) ||| (v2 >>> 4)] else none
  | [c1, c2, c3] => do
    let v1 ← b64Val c1
    let v2 ← b64Val c2
    let v3 ← b64Val c3
    if v3 &&& 3 = 0 then
      some [(v1 <<< 2) ||| (v2 >>> 4), ((v2 &&& 15) <<< 4) ||| (v3 >>> 2)]
    else none
  | c1 :: c2 :: c3 :: c4 :: rest => do
    let v1 ← b64Val c1
    let v2 ← b64Val c2
    let v3 ← b64Val c3
    let v4 ← b64Val c4
    let tail ← b64UrlDecodeNoPad rest
    some ([(v1 <<< 2) ||| (v2 >>> 4), ((v2 &&& 15) <<< 4) ||| (v3 >>> 2),
      ((v3 &&& 3) <<< 6) ||| v4] ++ tail)
  | _ => none

/-- URL-safe base64 decoding with canonical padding required (the crate's
`URL_SAFE` engine): length a multiple of four, `=` only as canonical trailing
padding, zero trailing bits. -/
def b64UrlDecodePadded (cs : List Char) : Option (List Nat) :=
  if cs.length % 4 ≠ 0 then none
  else
    match cs.reverse with
    | '=' :: '=' :: rest => b64UrlDecodeNoPad rest.reverse
    | '=' :: rest => b64UrlDecodeNoPad rest.reverse
    | _ => b64UrlDecodeNoPad cs

/-- `build_hmac_signature` from `src/trading.rs`.  The optional request body is
taken as its already-produced compact JSON serialization (`serde_json::to_string`
output); the secret is decoded with the crate's `URL_SAFE` engine (canonical `=`
padding required), the pre-image is `{timestamp}{method}{req_path}{body}`, and
the digest is emitted by the same `URL_SAFE` engine (with `=` padding). -/
def build_hmac_signature (secret : String) (timestamp : Nat) (method : String)
    (req_path : String) (body : Option String) : Except String String :=
  match b64UrlDecodePadded secret.data with
  | none => .error "Failed to decode secret"
  | some decoded =>
    let message :=
      match body with
      | none => toString timestamp ++ method ++ req_path
      | some serialized => toString timestamp ++ method ++ req_path ++ serialized
    .ok (String.mk (b64UrlEncode true (hmacSha256 decoded (strBytes message))))

/-- The claim's reading of `build_hmac_signature`: the secret is decoded as
URL-safe base64 **without** padding and the digest is returned URL-safe
base64-encoded **without** padding, over the same pre-image. -/
def build_hmac_signature_claimed (secret : String) (timestamp : Nat) (method : String)
    (req_path : String) (body : Option String) : Except String String :=
  match b64UrlDecodeNoPad secret.data with
  | none => .error "Failed to decode secret"
  | some decoded =>
    let message :=
      match body with
      | none => toString timestamp ++ method ++ req_path
      | some serialized => toString timestamp ++ method ++ req_path ++ serialized
    .ok (String.mk (b64UrlEncode false (hmacSha256 decoded (strBytes message))))

/-- The amended specification of `build_hmac_signature`: as the claim, but with
the crate's padded `URL_SAFE` base64 engine on both the secret decode (canonical
`=` padding required) and the digest encode (trailing `=` padding emitted). -/
def build_hmac_signature_spec (secret : String) (timestamp : Nat) (method : String)
    (req_path : String) (body : Option String) : Except String String :=
  match b64UrlDecodePadded secret.data with
  | none => .error "Failed to decode secret"
  | some key =>
    let message :=
      match body with
      | none => toString timestamp ++ method ++ req_path
      | some serialized => toString timestamp ++ method ++ req_path ++ serialized
    .ok (String.mk (b64UrlEncode true (hmacSha256 key (strBytes message))))

/-! ## Helper lemmas -/

/-- Rounding at a precision at least the current scale is the identity. -/
theorem round_dp_of_scale_le (d : Decimal) (dp : Nat) (st : RoundingStrategy)
    (h : d.scale ≤ dp) : d.round_dp_with_strategy dp st = d := by
  unfold Decimal.round_dp_with_strategy
  rw [if_pos h]

/-- Rounding at a precision below the current scale yields exactly that scale. -/
theorem round_dp_scale_of_lt (d : Decimal) (dp : Nat) (st : RoundingStrategy)
    (h : dp < d.scale) : (d.round_dp_with_strategy dp st).scale = dp := by
  unfold Decimal.round_dp_with_strategy
  rw [if_neg (by omega)]

/-- Inversion of a successful `create_order`: the produced request is exactly the
record assembled from the parameters, the wallet address and the seed. -/
theorem create_order_ok_inv (env : Env) (params : OrderParams) (req : SignedOrderRequest)
    (h : create_order env params = some (.ok req)) :
    ∃ (maker_amount taker_amount tid : Nat) (sig : String),
      parse_u256_dec params.token_id = some tid ∧
      req = { salt := env.seed, maker := params.funder.getD env.wallet_address,
              signer := env.wallet_address, taker := params.taker.getD ADDRESS_ZERO,
              token_id := params.token_id, maker_amount := toString maker_amount,
              taker_amount := toString taker_amount,
              expiration := toString (params.expiration.getD 0),
              nonce := toString (params.nonce.getD 0),
              fee_rate_bps := toString (params.fee_rate_bps.getD 0),
              side := params.side, signature_type := params.sig_type.to_u8,
              signature := sig } := by
  unfold create_order at h
  split at h
  next e hts => simp at h
  next tick_size hts =>
    split at h
    next hca => simp at h
    next maker_amount taker_amount hca =>
      split at h
      next hp => simp at h
      next tid hp =>
        split at h
        · dsimp only at h
          split at h
          next e hsg => simp at h
          next sig hsg =>
            simp only [Option.some.injEq, Except.ok.injEq] at h
            exact ⟨maker_amount, taker_amount, tid, sig, hp, h.symm⟩
        · dsimp only at h
          split at h
          next e hsg => simp at h
          next sig hsg =>
            simp only [Option.some.injEq, Except.ok.injEq] at h
            exact ⟨maker_amount, taker_amount, tid, sig, hp, h.symm⟩

/-! ## Concrete fixtures shared by several witnesses -/

/-- A fixed environment: wallet address, seed 5, and a signing function that
always succeeds with a fixed signature string. -/
def envFixture : Env :=
  { wallet_address := "0xabc", seed := 5, sign := fun _ _ => .ok "0xsig" }

/-- The Scenario-1 order parameters (Limit Buy, price 0.65, size 500, tick 0.01). -/
def paramsFixture : OrderParams :=
  { token_id := "123", price := ⟨65, 2⟩, side := .Buy, nonce := none,
    fee_rate_bps := none, expiration := none, taker := none, signer := "0xsigner",
    funder := none, tick_size := "0.01", kind := .Limit ⟨500, 0⟩, sig_type := .Eoa,
    neg_risk := false }

/-- The request `create_order envFixture paramsFixture` produces. -/
def reqFixture : SignedOrderRequest :=
  { salt := 5, maker := "0xabc", signer := "0xabc", taker := ADDRESS_ZERO,
    token_id := "123", maker_amount := "325000000", taker_amount := "500000000",
    expiration := "0", nonce := "0", fee_rate_bps := "0", side := .Buy,
    signature_type := 0, signature := "0xsig" }

example : create_order envFixture paramsFixture = some (.ok reqFixture) := rfl

example : create_order envFixture { paramsFixture with token_id := "1_0" }
    = some (.ok { reqFixture with token_id := "1_0" }) := rfl

/-! ## The claims -/

/-- C1: for price 0.65, side Buy, kind Limit with size 500 and tick size "0.01",
`calculate_order_amounts` returns maker_amount 325,000,000 and taker_amount
500,000,000 (integer token units at 6-decimal scale). -/
theorem c1_limit_buy_scenario :
    calculate_order_amounts ⟨65, 2⟩ .Buy (.Limit ⟨500, 0⟩) .Hundredth
      = some (325000000, 500000000) := by
  decide

/-- C7: for quote_amount 1000, side Buy, kind MarketBuy, price 0.40 and tick size
"0.01", `calculate_order_amounts` returns maker_amount 1,000,000,000 and
taker_amount 2,500,000,000. -/
theorem c7_market_buy_scenario :
    calculate_order_amounts ⟨40, 2⟩ .Buy (.MarketBuy ⟨1000, 0⟩) .Hundredth
      = some (1000000000, 2500000000) := by
  decide

/-- C8: for every price, tick size and amount, the unsupported pairings
(MarketBuy, Sell) and (MarketSell, Buy) make `calculate_order_amounts` return
`(0, 0)` without panicking (`some`, never `none`) and without an error. -/
theorem c8_defensive_fallback (price q b : Decimal) (tick : TickSize) :
    calculate_order_amounts price .Sell (.MarketBuy q) tick = some (0, 0) ∧
      calculate_order_amounts price .Buy (.MarketSell b) tick = some (0, 0) :=
  ⟨rfl, rfl⟩

/-- C4: the midpoint rounding used by `calculate_order_amounts` for the price
(strategy `.midpointTowardZero` at `round_config.price` digits) and by
`decimal_to_token_u32` for the final 0-digit rounding breaks ties toward zero:
on any value exactly at a midpoint it coincides with `.toZero` truncation, the
candidate closer to zero — stated for the strategy itself, for the
price-rounding site, and for the final conversion of a scaled amount. -/
theorem c4_midpoint_ties_toward_zero (d : Decimal) (dp : Nat) (price : Decimal)
    (tick : TickSize) :
    (d.isMidpointAt dp →
      d.round_dp_with_strategy dp .midpointTowardZero = d.round_dp_with_strategy dp .toZero) ∧
    (price.isMidpointAt tick.round_config.price →
      price.round_dp_with_strategy tick.round_config.price .midpointTowardZero
        = price.round_dp_with_strategy tick.round_config.price .toZero) ∧
    (∀ amt : Decimal, (TOKEN_SCALE.mul amt).isMidpointAt 0 →
      decimal_to_token_u32 amt
        = (if 0 ≤ ((TOKEN_SCALE.mul amt).round_dp_with_strategy 0 .toZero).mantissa ∧
              ((TOKEN_SCALE.mul amt).round_dp_with_strategy 0 .toZero).mantissa < 4294967296
           then some ((TOKEN_SCALE.mul amt).round_dp_with_strategy 0 .toZero).mantissa.toNat
           else none)) := by
  have key : ∀ (x : Decimal) (k : Nat), x.isMidpointAt k →
      x.round_dp_with_strategy k .midpointTowardZero = x.round_dp_with_strategy k .toZero := by
    intro x k hmid
    obtain ⟨hlt, htie⟩ := hmid
    unfold Decimal.round_dp_with_strategy
    rw [if_neg (by omega), if_neg (by omega)]
    have hnot : ¬ 2 * (x.mantissa.natAbs % 10 ^ (x.scale - k)) > 10 ^ (x.scale - k) := by
      omega
    simp only [hnot, if_false]
  refine ⟨key d dp, key price tick.round_config.price, ?_⟩
  intro amt hm
  simp only [decimal_to_token_u32]
  rw [if_pos hm.1, key (TOKEN_SCALE.mul amt) 0 hm]

/-- C4 witness: 6.5 rounded to 0 digits with the midpoint strategy gives 6 (the
truncation toward zero); a price of 1.25 under tick 0.1 rounds to 1.2; and the
amount 0.0000005, scaled to exactly 0.5 token units, converts to 0 units. -/
theorem c4_midpoint_ties_toward_zero_witness :
    (Decimal.round_dp_with_strategy ⟨65, 1⟩ 0 .midpointTowardZero
        = Decimal.round_dp_with_strategy ⟨65, 1⟩ 0 .toZero) ∧
      (Decimal.round_dp_with_strategy ⟨125, 2⟩ (TickSize.round_config .Tenth).price
          .midpointTowardZero
        = Decimal.round_dp_with_strategy ⟨125, 2⟩ (TickSize.round_config .Tenth).price
          .toZero) ∧
      decimal_to_token_u32 ⟨5, 7⟩ = some 0 :=
  ⟨(c4_midpoint_ties_toward_zero ⟨65, 1⟩ 0 ⟨125, 2⟩ .Tenth).1 (by decide),
   (c4_midpoint_ties_toward_zero ⟨65, 1⟩ 0 ⟨125, 2⟩ .Tenth).2.1 (by decide),
   ((c4_midpoint_ties_toward_zero ⟨65, 1⟩ 0 ⟨125, 2⟩ .Tenth).2.2 ⟨5, 7⟩
     (by decide)).trans (by decide)⟩

/-- C5: for every amount and every tick's RoundConfig, `fix_amount_rounding`
returns the amount unchanged when its scale is at most `amount_decimals`;
otherwise it rounds away-from-zero at `amount_decimals + 4` digits and, if the
scale still exceeds `amount_decimals`, truncates toward zero to
`amount_decimals` — and the result's scale never exceeds `amount_decimals`. -/
theorem c5_amount_fixing (amt : Decimal) (tick : TickSize) :
    fix_amount_rounding amt tick.round_config
        = (if amt.scale ≤ tick.round_config.amount then amt
           else
             let a1 := amt.round_dp_with_strategy (tick.round_config.amount + 4) .awayFromZero
             if tick.round_config.amount < a1.scale then
               a1.round_dp_with_strategy tick.round_config.amount .toZero
             else a1) ∧
      (fix_amount_rounding amt tick.round_config).scale ≤ tick.round_config.amount := by
  constructor
  · unfold fix_amount_rounding
    by_cases h : amt.scale ≤ tick.round_config.amount
    · rw [if_neg (by omega), if_pos h]
    · rw [if_pos (by omega), if_neg h]
  · unfold fix_amount_rounding
    by_cases h : tick.round_config.amount < amt.scale
    · rw [if_pos h]
      by_cases h2 : tick.round_config.amount
          < (amt.round_dp_with_strategy (tick.round_config.amount + 4) .awayFromZero).scale
      · rw [if_pos h2, round_dp_scale_of_lt _ _ _ h2]
      · rw [if_neg h2]; omega
    · rw [if_neg h]; omega

/-- C6: tick-size parsing succeeds exactly for "0.1", "0.01", "0.001", "0.0001"
and fails for every other string; and whenever the tick size of the parameters
does not parse, `create_order` returns the parse error and no order object. -/
theorem c6_tick_size_parsing (s : String) (env : Env) (params : OrderParams) :
    ((∃ t, TickSize.from_str s = .ok t) ↔
        s = "0.1" ∨ s = "0.01" ∨ s = "0.001" ∨ s = "0.0001") ∧
      ((∀ t, TickSize.from_str params.tick_size ≠ .ok t) →
        create_order env params = some (.error "invalid tick size")) := by
  constructor
  · unfold TickSize.from_str
    split_ifs with h1 h2 h3 h4 <;> simp_all
  · intro h
    have herr : TickSize.from_str params.tick_size = .error "invalid tick size" := by
      unfold TickSize.from_str at h ⊢
      split_ifs with h1 h2 h3 h4
      · have hc := h .Tenth
        rw [if_pos h1] at hc
        exact absurd rfl hc
      · have hc := h .Hundredth
        rw [if_neg h1, if_pos h2] at hc
        exact absurd rfl hc
      · have hc := h .Thousandth
        rw [if_neg h1, if_neg h2, if_pos h3] at hc
        exact absurd rfl hc
      · have hc := h .TenThousandth
        rw [if_neg h1, if_neg h2, if_neg h3, if_pos h4] at hc
        exact absurd rfl hc
      · rfl
    unfold create_order
    split
    next e hts =>
      rw [herr] at hts
      injection hts with he
      subst he
      rfl
    next t hts =>
      rw [herr] at hts
      exact Except.noConfusion hts

/-- Scenario-1 parameters with the invalid tick-size string "1". -/
def paramsBadTick : OrderParams :=
  { paramsFixture with tick_size := "1" }

/-- C6 witness: with tick size "1" (which does not parse), `create_order`
returns the tick-size parse error. -/
theorem c6_tick_size_parsing_witness :
    create_order envFixture paramsBadTick = some (.error "invalid tick size") :=
  (c6_tick_size_parsing "1" envFixture paramsBadTick).2 (by
    intro t h
    have hcl : (Except.error "invalid tick size" : Except String TickSize) = .ok t := h
    exact Except.noConfusion hcl)

/-- C10 counterexample: with quote_amount = Decimal::MAX (2^96 − 1) and price
0.01 under tick "0.01", the rounded price is nonzero yet the quote ÷ price
division overflows the 96-bit mantissa, so the division branch aborts rather
than returning — the "always returns under a nonzero rounded price" half of the
claim is false. -/
theorem c10_overflow_counterexample :
    (Decimal.round_dp_with_strategy ⟨1, 2⟩ (TickSize.round_config .Hundredth).price
        .midpointTowardZero).mantissa ≠ 0 ∧
      Decimal.div?
        (Decimal.round_dp_with_strategy ⟨79228162514264337593543950335, 0⟩
          (TickSize.round_config .Hundredth).size .toZero)
        (Decimal.round_dp_with_strategy ⟨1, 2⟩ (TickSize.round_config .Hundredth).price
          .midpointTowardZero) = none ∧
      calculate_order_amounts ⟨1, 2⟩ .Buy (.MarketBuy ⟨79228162514264337593543950335, 0⟩)
        .Hundredth = none := by
  decide

/-- C10 (amended): on (MarketBuy, Buy), whenever the price rounded to the tick's
price precision is zero, `calculate_order_amounts` aborts (the division panic,
modelled `none`) rather than returning a value or an error; with a nonzero
rounded price the quote ÷ price division returns a value whenever the quotient
fits `rust_decimal`'s 96-bit mantissa, but the branch still aborts with the
division-overflow panic when it does not. -/
theorem c10_market_buy_division_amended (quote price : Decimal) (tick : TickSize) :
    ((price.round_dp_with_strategy tick.round_config.price .midpointTowardZero).mantissa = 0 →
      calculate_order_amounts price .Buy (.MarketBuy quote) tick = none) ∧
    ((price.round_dp_with_strategy tick.round_config.price .midpointTowardZero).mantissa ≠ 0 →
      ¬ (quote.round_dp_with_strategy tick.round_config.size .toZero).divOverflows
          (price.round_dp_with_strategy tick.round_config.price .midpointTowardZero) →
      ((quote.round_dp_with_strategy tick.round_config.size .toZero).div?
        (price.round_dp_with_strategy tick.round_config.price .midpointTowardZero)).isSome
          = true) ∧
    ((price.round_dp_with_strategy tick.round_config.price .midpointTowardZero).mantissa ≠ 0 →
      (quote.round_dp_with_strategy tick.round_config.size .toZero).divOverflows
          (price.round_dp_with_strategy tick.round_config.price .midpointTowardZero) →
      calculate_order_amounts price .Buy (.MarketBuy quote) tick = none) := by
  refine ⟨fun h0 => ?_, fun h0 hov => ?_, fun h0 hov => ?_⟩
  · show (do
      let quotient ← (quote.round_dp_with_strategy tick.round_config.size .toZero).div?
        (price.round_dp_with_strategy tick.round_config.price .midpointTowardZero)
      let raw_base := fix_amount_rounding quotient tick.round_config
      let m ← decimal_to_token_u32 (quote.round_dp_with_strategy tick.round_config.size .toZero)
      let t ← decimal_to_token_u32 raw_base
      pure (m, t)) = none
    rw [show (quote.round_dp_with_strategy tick.round_config.size .toZero).div?
        (price.round_dp_with_strategy tick.round_config.price .midpointTowardZero) = none by
      unfold Decimal.div?
      rw [if_pos h0]]
    rfl
  · unfold Decimal.div?
    rw [if_neg h0, if_neg hov]
    rfl
  · show (do
      let quotient ← (quote.round_dp_with_strategy tick.round_config.size .toZero).div?
        (price.round_dp_with_strategy tick.round_config.price .midpointTowardZero)
      let raw_base := fix_amount_rounding quotient tick.round_config
      let m ← decimal_to_token_u32 (quote.round_dp_with_strategy tick.round_config.size .toZero)
      let t ← decimal_to_token_u32 raw_base
      pure (m, t)) = none
    rw [show (quote.round_dp_with_strategy tick.round_config.size .toZero).div?
        (price.round_dp_with_strategy tick.round_config.price .midpointTowardZero) = none by
      unfold Decimal.div?
      rw [if_neg h0, if_pos hov]]
    rfl

/-- C10 witness: price 0.004 rounds to 0.00 under tick "0.01" and the MarketBuy
branch aborts; price 0.40 rounds to a nonzero value and 1000 ÷ 0.40 returns;
Decimal::MAX ÷ 0.01 overflows and the branch aborts. -/
theorem c10_market_buy_division_amended_witness :
    calculate_order_amounts ⟨4, 3⟩ .Buy (.MarketBuy ⟨1000, 0⟩) .Hundredth = none ∧
      ((Decimal.round_dp_with_strategy ⟨1000, 0⟩ (TickSize.round_config .Hundredth).size
          .toZero).div?
        (Decimal.round_dp_with_strategy ⟨40, 2⟩ (TickSize.round_config .Hundredth).price
          .midpointTowardZero)).isSome = true ∧
      calculate_order_amounts ⟨1, 2⟩ .Buy (.MarketBuy ⟨79228162514264337593543950335, 0⟩)
        .Hundredth = none :=
  ⟨(c10_market_buy_division_amended ⟨1000, 0⟩ ⟨4, 3⟩ .Hundredth).1 (by decide),
   (c10_market_buy_division_amended ⟨1000, 0⟩ ⟨40, 2⟩ .Hundredth).2.1 (by decide) (by decide),
   (c10_market_buy_division_amended ⟨79228162514264337593543950335, 0⟩ ⟨1, 2⟩
     .Hundredth).2.2 (by decide) (by decide)⟩

/-- C9: `create_order` never reads `OrderParams.signer` — changing that field
changes nothing in the output — and in any produced request the recorded signer
is the wallet address, which is also the maker (funder) when `funder` is unset. -/
theorem c9_signer_field_unused (env : Env) (params : OrderParams) (s : String)
    (req : SignedOrderRequest) :
    create_order env { params with signer := s } = create_order env params ∧
      (create_order env params = some (.ok req) →
        req.signer = env.wallet_address ∧
          (params.funder = none → req.maker = env.wallet_address)) := by
  constructor
  · cases params
    rfl
  · intro h
    obtain ⟨maker_amount, taker_amount, tid, sig, hp, hreq⟩ := create_order_ok_inv env params req h
    subst hreq
    refine ⟨rfl, fun hf => ?_⟩
    rw [hf]
    rfl

/-- C9 witness: on the concrete fixture (whose `funder` is unset), replacing the
`signer` parameter leaves the output unchanged, and the produced request's
signer and maker both equal the wallet address. -/
theorem c9_signer_field_unused_witness :
    create_order envFixture { paramsFixture with signer := "0xother" }
        = create_order envFixture paramsFixture ∧
      reqFixture.signer = envFixture.wallet_address ∧
        reqFixture.maker = envFixture.wallet_address :=
  ⟨(c9_signer_field_unused envFixture paramsFixture "0xother" reqFixture).1,
   ((c9_signer_field_unused envFixture paramsFixture "0xother" reqFixture).2 rfl).1,
   ((c9_signer_field_unused envFixture paramsFixture "0xother" reqFixture).2 rfl).2 rfl⟩

/-- C2 counterexample: "AAAAAA" is a valid URL-safe base64 secret *without*
padding (four zero bytes) but is rejected by the code, which requires canonical
`=` padding — so `build_hmac_signature` differs from the claim's no-padding
reading already at the secret-decoding step. -/
theorem c2_hmac_padding_counterexample :
    build_hmac_signature "AAAAAA" 1700000000 "POST" "/order" none
      ≠ build_hmac_signature_claimed "AAAAAA" 1700000000 "POST" "/order" none := by
  intro h
  have h1 : build_hmac_signature "AAAAAA" 1700000000 "POST" "/order" none
      = .error "Failed to decode secret" := rfl
  have h2 : ∃ v, build_hmac_signature_claimed "AAAAAA" 1700000000 "POST" "/order" none
      = .ok v := ⟨_, rfl⟩
  obtain ⟨v, h2⟩ := h2
  rw [h1, h2] at h
  exact Except.noConfusion h

/-- C2 (amended): `build_hmac_signature` decodes the secret as URL-safe base64
with canonical `=` padding, computes HMAC-SHA256 with the decoded secret as key
over `timestamp || method || path` with the compact JSON body appended when
present, and returns the URL-safe base64 encoding *with* `=` padding of the raw
digest — i.e. it agrees everywhere with `build_hmac_signature_spec`. -/
theorem c2_hmac_signature_amended (secret : String) (timestamp : Nat) (method : String)
    (req_path : String) (body : Option String) :
    build_hmac_signature secret timestamp method req_path body
      = build_hmac_signature_spec secret timestamp method req_path body := rfl

/-- C3 counterexample: on the concrete fixture order, `create_order` succeeds
yet the serde serialization of the produced request renders `salt` as the JSON
number 5, not as the decimal string "5" — so not every numeric field is a
decimal string. -/
theorem c3_wire_format_counterexample :
    create_order envFixture paramsFixture = some (.ok reqFixture) ∧
      (SignedOrderRequest.toJson reqFixture).lookup "salt"
        ≠ some (Json.str (toString reqFixture.salt)) := by
  refine ⟨rfl, ?_⟩
  intro h
  have h1 : (SignedOrderRequest.toJson reqFixture).lookup "salt" = some (Json.num 5) := rfl
  rw [h1] at h
  exact Json.noConfusion (Option.some.inj h)

/-- C3 (amended): in the request produced by `create_order`, the numeric fields
makerAmount, takerAmount, expiration, nonce and feeRateBps serialize as decimal
strings; tokenId serializes as a string — the input numeral passed through
verbatim, validated by `U256::from_str_radix` (radix 10, which also ignores `_`
separators, so not necessarily a pure decimal numeral); `side` serializes as
the string "BUY" or "SELL" and `signatureType` as an integer — but `salt`
serializes as a native JSON integer, not a decimal string. -/
theorem c3_wire_format_amended (env : Env) (params : OrderParams)
    (req : SignedOrderRequest) (h : create_order env params = some (.ok req)) :
    (∃ m : Nat, (SignedOrderRequest.toJson req).lookup "makerAmount"
        = some (.str (toString m))) ∧
      (∃ t : Nat, (SignedOrderRequest.toJson req).lookup "takerAmount"
        = some (.str (toString t))) ∧
      (∃ e : Nat, (SignedOrderRequest.toJson req).lookup "expiration"
        = some (.str (toString e))) ∧
      (∃ n : Nat, (SignedOrderRequest.toJson req).lookup "nonce"
        = some (.str (toString n))) ∧
      (∃ f : Nat, (SignedOrderRequest.toJson req).lookup "feeRateBps"
        = some (.str (toString f))) ∧
      ((SignedOrderRequest.toJson req).lookup "tokenId" = some (.str req.token_id) ∧
        ∃ tid : Nat, parse_u256_dec req.token_id = some tid) ∧
      (SignedOrderRequest.toJson req).lookup "salt" = some (.num req.salt) ∧
      ((SignedOrderRequest.toJson req).lookup "side" = some (.str "BUY") ∨
        (SignedOrderRequest.toJson req).lookup "side" = some (.str "SELL")) ∧
      (∃ st : Nat, (SignedOrderRequest.toJson req).lookup "signatureType"
        = some (.num st)) := by
  obtain ⟨maker_amount, taker_amount, tid, sig, hp, hreq⟩ := create_order_ok_inv env params req h
  subst hreq
  refine ⟨⟨maker_amount, rfl⟩, ⟨taker_amount, rfl⟩, ⟨params.expiration.getD 0, rfl⟩,
    ⟨params.nonce.getD 0, rfl⟩, ⟨params.fee_rate_bps.getD 0, rfl⟩, ⟨rfl, tid, hp⟩, rfl,
    ?_, ⟨params.sig_type.to_u8, rfl⟩⟩
  cases params.side
  · exact Or.inl rfl
  · exact Or.inr rfl

/-- C3 witness for the amended claim: the fixture request's salt serializes as a
JSON number and its makerAmount as a decimal string. -/
theorem c3_wire_format_amended_witness :
    (SignedOrderRequest.toJson reqFixture).lookup "salt"
        = some (Json.num reqFixture.salt) ∧
      ∃ m : Nat, (SignedOrderRequest.toJson reqFixture).lookup "makerAmount"
        = some (Json.str (toString m)) :=
  ⟨(c3_wire_format_amended envFixture paramsFixture reqFixture rfl).2.2.2.2.2.2.1,
   (c3_wire_format_amended envFixture paramsFixture reqFixture rfl).1⟩
